import Mathlib

/-!
# Verification of the Image-to-PDF page-layout engine

Shallow embedding of the layout computation performed by `generatePdf`
(src/services/geminiService.ts, lines 213-360) together with the data
model from the repository's `types.ts` and the upload filter from
`ImageUploader.handleFiles`.  All arithmetic of the source (JavaScript
numbers) is modelled over `ℚ`.
-/

namespace ImageToPdf

/-- `UploadedImage` from types.ts: the fields the layout engine reads
(`width`, `height` in pixels, `type` the MIME type).  The remaining
fields (`id`, `file`, `previewUrl`, `name`) are opaque to the layout
arithmetic; `previewUrl` is an object URL over the original file bytes. -/
structure UploadedImage where
  width : ℚ
  height : ℚ
  type : String
deriving DecidableEq

/-- `PageSize` enum from types.ts. -/
inductive PageSize where
  | A4
  | LETTER
  | FIT_IMAGE
deriving DecidableEq

/-- `PageOrientation` enum from types.ts (`'p'`, `'l'`, `'auto'`). -/
inductive PageOrientation where
  | PORTRAIT
  | LANDSCAPE
  | AUTO
deriving DecidableEq

/-- `ImageFit` enum from types.ts. -/
inductive ImageFit where
  | CONTAIN
  | FILL
  | ORIGINAL
deriving DecidableEq

/-- `PdfSettings` from types.ts. -/
structure PdfSettings where
  pageSize : PageSize
  orientation : PageOrientation
  margin : ℚ
  imageFit : ImageFit
  filename : String
deriving DecidableEq

/-- A4 width in mm (source line 236). -/
def A4_WIDTH : ℚ := 210
/-- A4 height in mm (source line 237). -/
def A4_HEIGHT : ℚ := 297
/-- Letter width in mm (source line 238). -/
def LETTER_WIDTH : ℚ := 215.9
/-- Letter height in mm (source line 239). -/
def LETTER_HEIGHT : ℚ := 279.4
/-- The pixel-to-millimeter constant the code uses (source lines 246 and 307):
`const pxToMm = 0.264583; // 1px @ 96dpi`. -/
def pxToMm : ℚ := 0.264583

/-- Resolved orientation for one image (source lines 261-271):
`true` models `'l'` (landscape), `false` models `'p'` (portrait).
Under `AUTO`, landscape exactly when `img.width > img.height`;
otherwise taken verbatim from the settings. -/
def resolveOrientation (img : UploadedImage) (s : PdfSettings) : Bool :=
  if s.orientation = PageOrientation.AUTO then
    decide (img.width > img.height)
  else
    decide (s.orientation = PageOrientation.LANDSCAPE)

/-- Page dimensions `(pageWidth, pageHeight)` for one image after the
page-size selection (source lines 243-258) and the landscape swap
(source lines 262-280).  In the non-AUTO branch the code swaps only when
`pageWidth < pageHeight`; in the AUTO branch it swaps unconditionally on
landscape.  No swap is ever applied for `FIT_IMAGE`. -/
def resolvePage (img : UploadedImage) (s : PdfSettings) : ℚ × ℚ :=
  let pageWidth : ℚ :=
    if s.pageSize = PageSize.FIT_IMAGE then img.width * pxToMm
    else if s.pageSize = PageSize.LETTER then LETTER_WIDTH
    else A4_WIDTH
  let pageHeight : ℚ :=
    if s.pageSize = PageSize.FIT_IMAGE then img.height * pxToMm
    else if s.pageSize = PageSize.LETTER then LETTER_HEIGHT
    else A4_HEIGHT
  if s.orientation = PageOrientation.AUTO then
    if s.pageSize ≠ PageSize.FIT_IMAGE ∧ img.width > img.height then
      (pageHeight, pageWidth)
    else
      (pageWidth, pageHeight)
  else
    if s.pageSize ≠ PageSize.FIT_IMAGE ∧ s.orientation = PageOrientation.LANDSCAPE
        ∧ pageWidth < pageHeight then
      (pageHeight, pageWidth)
    else
      (pageWidth, pageHeight)

/-- Placement rectangle `(x, y, w, h)` of the image on its page
(source lines 323-354).  `x`, `y`, `w`, `h` start as the margin /
drawable area; `FIT_IMAGE` overrides with the full page; `CONTAIN`
scales preserving the aspect ratio and centers on the leftover axis;
every other fit keeps the initialized drawable-area rectangle. -/
def placeRect (img : UploadedImage) (s : PdfSettings) (pageWidth pageHeight : ℚ) :
    ℚ × ℚ × ℚ × ℚ :=
  let margin := s.margin
  let drawWidth := pageWidth - margin * 2
  let drawHeight := pageHeight - margin * 2
  if s.pageSize = PageSize.FIT_IMAGE then
    (0, 0, pageWidth, pageHeight)
  else if s.imageFit = ImageFit.CONTAIN then
    let imgRatio := img.width / img.height
    let pageRatio := drawWidth / drawHeight
    if imgRatio > pageRatio then
      (margin, margin + (drawHeight - drawWidth / imgRatio) / 2,
        drawWidth, drawWidth / imgRatio)
    else
      (margin + (drawWidth - drawHeight * imgRatio) / 2, margin,
        drawHeight * imgRatio, drawHeight)
  else
    (margin, margin, drawWidth, drawHeight)

/-- The geometric part of a `PageLayout`: physical page size and the
image placement rectangle, all in millimeters. -/
structure Geom where
  pageWidth : ℚ
  pageHeight : ℚ
  x : ℚ
  y : ℚ
  w : ℚ
  h : ℚ
deriving DecidableEq

/-- Layout of a single image: the body of the `generatePdf` loop
(source lines 228-356) restricted to the values that feed
`doc.addImage(_, _, x, y, w, h, ...)` and the resolved page size.
The loop body reads only `img.width`, `img.height` and `settings`. -/
def layoutImage (img : UploadedImage) (s : PdfSettings) : Geom :=
  let p := resolvePage img s
  let r := placeRect img s p.1 p.2
  { pageWidth := p.1, pageHeight := p.2,
    x := r.1, y := r.2.1, w := r.2.2.1, h := r.2.2.2 }

/-- One `PageLayout` of the engine output: geometry plus the index of
the originating image. -/
structure PageLayout where
  geom : Geom
  sourceImageIndex : ℕ
deriving DecidableEq

/-- The `for (let i = 0; i < images.length; i++)` loop of `generatePdf`
(source lines 228-357), carrying the running index `i`. -/
def computeLayoutAux (s : PdfSettings) : ℕ → List UploadedImage → List PageLayout
  | _, [] => []
  | i, img :: rest =>
      { geom := layoutImage img s, sourceImageIndex := i } :: computeLayoutAux s (i + 1) rest

/-- The full layout computation: one `PageLayout` per input image, in
input order, starting at index 0. -/
def computeLayout (images : List UploadedImage) (s : PdfSettings) : List PageLayout :=
  computeLayoutAux s 0 images

/-- The saved document, as observable from `generatePdf`: the filename
passed to `doc.save` (source line 359, `settings.filename || 'images.pdf'`)
and the sequence of page layouts drawn into it. -/
structure SavedPdf where
  filename : String
  layouts : List PageLayout
deriving DecidableEq

/-- `generatePdf` (source lines 213-360): returns immediately with no
document when the image list is empty (line 214, `if (images.length === 0)
return;` precedes the `jsPDF` construction), otherwise draws every
layout and saves. -/
def generatePdf (images : List UploadedImage) (s : PdfSettings) : Option SavedPdf :=
  if images = [] then none
  else some { filename := if s.filename = "" then "images.pdf" else s.filename,
              layouts := computeLayout images s }

/-- The MIME allow-list of `handleFiles` in the uploader component
(`const validImageTypes = ['image/jpeg', 'image/png', 'image/webp', 'image/jpg']`). -/
def validImageTypes : List String := ["image/jpeg", "image/png", "image/webp", "image/jpg"]

/-- Whether `handleFiles` accepts a file of the given MIME type
(`files.filter(file => validImageTypes.includes(file.type))`). -/
def handleFilesAccepts (t : String) : Bool := validImageTypes.contains t

/-- The format tag `generatePdf` hands to `doc.addImage` (source line 356):
`img.type === 'image/png' ? 'PNG' : 'JPEG'`. -/
def addImageFormat (img : UploadedImage) : String :=
  if img.type = "image/png" then "PNG" else "JPEG"

/-- MIME type of the payload `generatePdf` hands to `doc.addImage`.  The
payload is `img.previewUrl`, the object URL created in `handleUpload`
over the original uploaded file; no transcoding happens anywhere in the
repository, so the payload keeps the uploaded file's type. -/
def addImagePayloadType (img : UploadedImage) : String := img.type

/-- The nominal `targetFormat` dimensions recorded in the page-size
selection (source lines 241-258), before any landscape swap:
`'a4'` is 210 x 297, `'letter'` is 215.9 x 279.4, and for `FIT_IMAGE` the
array `[pageWidth, pageHeight]` captured at line 249. -/
def nominalFormat (img : UploadedImage) (s : PdfSettings) : ℚ × ℚ :=
  if s.pageSize = PageSize.FIT_IMAGE then (img.width * pxToMm, img.height * pxToMm)
  else if s.pageSize = PageSize.LETTER then (LETTER_WIDTH, LETTER_HEIGHT)
  else (A4_WIDTH, A4_HEIGHT)

/-- Size of a page created by the external writer's `addPage(format,
orientation)`: the format's dimensions, with the larger side placed
horizontally when the orientation is landscape and vertically when it is
portrait.  This models the jsPDF behavior the source relies on (its own
comments at lines 217, 226 and 315 record that a new document starts
with one default page and that `addPage` honors format and orientation). -/
def jsPdfAddPage (fw fh : ℚ) (landscape : Bool) : ℚ × ℚ :=
  if landscape then (if fw < fh then (fh, fw) else (fw, fh))
  else (if fh < fw then (fh, fw) else (fw, fh))

/-- Physical size of the page that iteration `i` of `generatePdf` draws
on (source lines 216-321).  For `i > 0` the code calls
`doc.addPage(targetFormat, orientation)`.  For `i = 0`: in `FIT_IMAGE`
mode it replaces page 1 (`deletePage(1); addPage([w, h], w > h ? 'l' :
'p')`, lines 307-313); for a standard size it replaces page 1 only when
the resolved orientation is not `'p'` (lines 315-319); otherwise the
default page from the `jsPDF` constructor — A4 portrait, lines 218-223 —
is kept. -/
def emittedPageSize (i : ℕ) (img : UploadedImage) (s : PdfSettings) : ℚ × ℚ :=
  let f := nominalFormat img s
  let ori := resolveOrientation img s
  if i = 0 then
    if s.pageSize = PageSize.FIT_IMAGE then
      jsPdfAddPage f.1 f.2 (decide (f.2 < f.1))
    else if ori = true then
      jsPdfAddPage f.1 f.2 true
    else
      (A4_WIDTH, A4_HEIGHT)
  else
    jsPdfAddPage f.1 f.2 ori

/-! ### Concrete inputs used by witnesses and counterexamples -/

/-- `DEFAULT_SETTINGS` from App.tsx (A4, auto orientation, 10 mm margin,
contain fit, filename `images.pdf`). -/
def DEFAULT_SETTINGS : PdfSettings :=
  ⟨PageSize.A4, PageOrientation.AUTO, 10, ImageFit.CONTAIN, "images.pdf"⟩

/-- A4, forced portrait, 10 mm margin, contain fit. -/
def A4_PORTRAIT_10 : PdfSettings :=
  ⟨PageSize.A4, PageOrientation.PORTRAIT, 10, ImageFit.CONTAIN, "images.pdf"⟩

/-- Fit-to-image mode with a configured (ignored) margin. -/
def FIT_SETTINGS : PdfSettings :=
  ⟨PageSize.FIT_IMAGE, PageOrientation.AUTO, 10, ImageFit.CONTAIN, "images.pdf"⟩

/-- Letter, forced portrait, 10 mm margin, contain fit. -/
def LETTER_PORTRAIT_10 : PdfSettings :=
  ⟨PageSize.LETTER, PageOrientation.PORTRAIT, 10, ImageFit.CONTAIN, "images.pdf"⟩

/-- A4, forced portrait, the maximal 50 mm margin, contain fit. -/
def A4_MARGIN50 : PdfSettings :=
  ⟨PageSize.A4, PageOrientation.PORTRAIT, 50, ImageFit.CONTAIN, "images.pdf"⟩

/-- Letter, fill fit, 5 mm margin. -/
def LETTER_FILL_5 : PdfSettings :=
  ⟨PageSize.LETTER, PageOrientation.PORTRAIT, 5, ImageFit.FILL, "scan.pdf"⟩

/-- A 3000 x 2000 px JPEG (the spec's worked example). -/
def imgLandscape : UploadedImage := ⟨3000, 2000, "image/jpeg"⟩

/-- A 2000 x 3000 px JPEG. -/
def imgPortrait : UploadedImage := ⟨2000, 3000, "image/jpeg"⟩

/-- A 3000 x 2000 px PNG: same pixel dimensions as `imgLandscape`,
different MIME type. -/
def imgLandscapePng : UploadedImage := ⟨3000, 2000, "image/png"⟩

/-- An image whose dimensions never finished probing (width 0). -/
def imgZeroWidth : UploadedImage := ⟨0, 100, "image/jpeg"⟩

/-- A 1000 x 800 px WebP image. -/
def imgWebp : UploadedImage := ⟨1000, 800, "image/webp"⟩

/-! ### Helper lemmas -/

lemma computeLayoutAux_length (s : PdfSettings) (l : List UploadedImage) :
    ∀ i, (computeLayoutAux s i l).length = l.length := by
  induction l with
  | nil => intro i; rfl
  | cons a t ih => intro i; simp [computeLayoutAux, ih]

lemma computeLayout_length (images : List UploadedImage) (s : PdfSettings) :
    (computeLayout images s).length = images.length :=
  computeLayoutAux_length s images 0

lemma computeLayoutAux_get? (s : PdfSettings) (l : List UploadedImage) :
    ∀ i k, (computeLayoutAux s i l).get? k
      = (l.get? k).map fun img => { geom := layoutImage img s, sourceImageIndex := i + k } := by
  induction l with
  | nil => intro i k; simp [computeLayoutAux]
  | cons a t ih =>
    intro i k
    cases k with
    | zero => simp [computeLayoutAux]
    | succ n =>
      simp only [computeLayoutAux, List.get?_cons_succ, ih (i + 1) n]
      have h : i + 1 + n = i + (n + 1) := by omega
      rw [h]

lemma computeLayout_get? (images : List UploadedImage) (s : PdfSettings) (k : ℕ) :
    (computeLayout images s).get? k
      = (images.get? k).map fun img => { geom := layoutImage img s, sourceImageIndex := k } := by
  have h := computeLayoutAux_get? s images 0 k
  simpa [computeLayout] using h

lemma computeLayout_get (images : List UploadedImage) (s : PdfSettings) (k : ℕ)
    (hk : k < images.length) :
    (computeLayout images s).get ⟨k, by rw [computeLayout_length]; exact hk⟩
      = { geom := layoutImage (images.get ⟨k, hk⟩) s, sourceImageIndex := k } := by
  have hk2 : k < (computeLayout images s).length := by rw [computeLayout_length]; exact hk
  have h1 : (computeLayout images s).get? k
      = some ((computeLayout images s).get ⟨k, hk2⟩) := List.get?_eq_get hk2
  have h2 : images.get? k = some (images.get ⟨k, hk⟩) := List.get?_eq_get hk
  have h3 := computeLayout_get? images s k
  rw [h1, h2] at h3
  simpa using h3

/-- The layout of an image depends only on its pixel dimensions. -/
lemma layoutImage_congr (img1 img2 : UploadedImage) (s : PdfSettings)
    (hw : img1.width = img2.width) (hh : img1.height = img2.height) :
    layoutImage img1 s = layoutImage img2 s := by
  cases img1
  cases img2
  simp only at hw hh
  subst hw
  subst hh
  rfl

/-- On the standard page-size modes, the resolved page is one of the
four standard formats. -/
lemma resolvePage_standard (img : UploadedImage) (s : PdfSettings)
    (h : s.pageSize ≠ PageSize.FIT_IMAGE) :
    resolvePage img s = (A4_WIDTH, A4_HEIGHT) ∨ resolvePage img s = (A4_HEIGHT, A4_WIDTH)
    ∨ resolvePage img s = (LETTER_WIDTH, LETTER_HEIGHT)
    ∨ resolvePage img s = (LETTER_HEIGHT, LETTER_WIDTH) := by
  cases hp : s.pageSize with
  | FIT_IMAGE => exact absurd hp h
  | A4 =>
    cases ho : s.orientation with
    | PORTRAIT =>
      exact Or.inl (by simp [resolvePage, hp, ho])
    | LANDSCAPE =>
      refine Or.inr (Or.inl ?_)
      simp [resolvePage, hp, ho, A4_WIDTH, A4_HEIGHT]
      norm_num
    | AUTO =>
      by_cases hwh : img.width > img.height
      · exact Or.inr (Or.inl (by simp [resolvePage, hp, ho, hwh]))
      · exact Or.inl (by simp [resolvePage, hp, ho, hwh])
  | LETTER =>
    cases ho : s.orientation with
    | PORTRAIT =>
      exact Or.inr (Or.inr (Or.inl (by simp [resolvePage, hp, ho])))
    | LANDSCAPE =>
      refine Or.inr (Or.inr (Or.inr ?_))
      simp [resolvePage, hp, ho, LETTER_WIDTH, LETTER_HEIGHT]
      norm_num
    | AUTO =>
      by_cases hwh : img.width > img.height
      · exact Or.inr (Or.inr (Or.inr (by simp [resolvePage, hp, ho, hwh])))
      · exact Or.inr (Or.inr (Or.inl (by simp [resolvePage, hp, ho, hwh])))

/-- Both resolved page dimensions are at least 210 mm on the standard
page-size modes. -/
lemma resolvePage_ge (img : UploadedImage) (s : PdfSettings)
    (h : s.pageSize ≠ PageSize.FIT_IMAGE) :
    210 ≤ (resolvePage img s).1 ∧ 210 ≤ (resolvePage img s).2 := by
  rcases resolvePage_standard img s h with h1 | h1 | h1 | h1 <;>
    rw [h1] <;>
    norm_num [A4_WIDTH, A4_HEIGHT, LETTER_WIDTH, LETTER_HEIGHT]

/-- Full characterization of the CONTAIN placement on a non-FIT_TO_IMAGE
page: exact branch formulas, aspect-ratio preservation, containment in
the drawable area, and symmetric leftover gaps on both axes. -/
lemma placeRect_contain_spec (img : UploadedImage) (s : PdfSettings) (pw ph : ℚ)
    (hfit : s.imageFit = ImageFit.CONTAIN) (hps : s.pageSize ≠ PageSize.FIT_IMAGE)
    (hW : 0 < img.width) (hH : 0 < img.height)
    (hdw : 0 < pw - s.margin * 2) (hdh : 0 < ph - s.margin * 2) :
    (placeRect img s pw ph).2.2.1 / (placeRect img s pw ph).2.2.2 = img.width / img.height
    ∧ (s.margin ≤ (placeRect img s pw ph).1
       ∧ s.margin ≤ (placeRect img s pw ph).2.1
       ∧ (placeRect img s pw ph).1 + (placeRect img s pw ph).2.2.1
           ≤ s.margin + (pw - s.margin * 2)
       ∧ (placeRect img s pw ph).2.1 + (placeRect img s pw ph).2.2.2
           ≤ s.margin + (ph - s.margin * 2))
    ∧ ((placeRect img s pw ph).1 - s.margin
         = s.margin + (pw - s.margin * 2)
             - ((placeRect img s pw ph).1 + (placeRect img s pw ph).2.2.1)
       ∧ (placeRect img s pw ph).2.1 - s.margin
         = s.margin + (ph - s.margin * 2)
             - ((placeRect img s pw ph).2.1 + (placeRect img s pw ph).2.2.2))
    ∧ (if (pw - s.margin * 2) / (ph - s.margin * 2) < img.width / img.height then
         (placeRect img s pw ph).2.2.1 = pw - s.margin * 2
         ∧ (placeRect img s pw ph).2.2.2 = (pw - s.margin * 2) / (img.width / img.height)
         ∧ (placeRect img s pw ph).1 = s.margin
         ∧ (placeRect img s pw ph).2.1
             = s.margin + ((ph - s.margin * 2) - (pw - s.margin * 2) / (img.width / img.height)) / 2
       else
         (placeRect img s pw ph).2.2.2 = ph - s.margin * 2
         ∧ (placeRect img s pw ph).2.2.1 = (ph - s.margin * 2) * (img.width / img.height)
         ∧ (placeRect img s pw ph).2.1 = s.margin
         ∧ (placeRect img s pw ph).1
             = s.margin + ((pw - s.margin * 2) - (ph - s.margin * 2) * (img.width / img.height)) / 2) := by
  have hR : 0 < img.width / img.height := div_pos hW hH
  simp only [placeRect, hfit, hps, if_neg, if_false, if_true, gt_iff_lt]
  split_ifs with hcmp
  · have hlt : (pw - s.margin * 2) / (img.width / img.height) < ph - s.margin * 2 := by
      rw [div_lt_iff₀ hR]
      rw [div_lt_iff₀ hdh] at hcmp
      linarith [hcmp]
    have hhpos : 0 < (pw - s.margin * 2) / (img.width / img.height) := div_pos hdw hR
    dsimp only
    refine ⟨?_, ⟨le_refl _, ?_, ?_, ?_⟩, ⟨?_, ?_⟩, ⟨rfl, rfl, rfl, rfl⟩⟩
    · field_simp
      ring
    · linarith
    · linarith
    · linarith
    · ring
    · ring
  · have hle : img.width / img.height ≤ (pw - s.margin * 2) / (ph - s.margin * 2) :=
      le_of_not_lt hcmp
    have hmul : (ph - s.margin * 2) * (img.width / img.height) ≤ pw - s.margin * 2 := by
      rw [le_div_iff₀ hdh] at hle
      linarith [hle]
    have hwpos : 0 < (ph - s.margin * 2) * (img.width / img.height) := mul_pos hdh hR
    dsimp only
    refine ⟨?_, ⟨?_, le_refl _, ?_, ?_⟩, ⟨?_, ?_⟩, ⟨rfl, rfl, rfl, rfl⟩⟩
    · field_simp
      ring
    · linarith
    · linarith
    · linarith
    · ring
    · ring

/-- The placed rectangle never has negative dimensions when the
drawable area is non-negative, whatever the image fit. -/
lemma placeRect_nonneg (img : UploadedImage) (s : PdfSettings) (pw ph : ℚ)
    (hps : s.pageSize ≠ PageSize.FIT_IMAGE)
    (hW : 0 < img.width) (hH : 0 < img.height)
    (hdw : 0 ≤ pw - s.margin * 2) (hdh : 0 ≤ ph - s.margin * 2) :
    0 ≤ (placeRect img s pw ph).2.2.1 ∧ 0 ≤ (placeRect img s pw ph).2.2.2 := by
  have hR : 0 ≤ img.width / img.height := le_of_lt (div_pos hW hH)
  by_cases hfit : s.imageFit = ImageFit.CONTAIN
  · simp only [placeRect, hfit, hps, if_neg, if_false, if_true, gt_iff_lt]
    split_ifs with hcmp
    · dsimp only
      exact ⟨hdw, div_nonneg hdw hR⟩
    · dsimp only
      exact ⟨mul_nonneg hdh hR, hdh⟩
  · simp only [placeRect, hps, hfit, if_neg, if_false, gt_iff_lt]
    exact ⟨hdw, hdh⟩

/-- In `FIT_IMAGE` mode the layout is fully determined by the image's
pixel dimensions and the code's `pxToMm` constant: the page is the
converted image size and the rectangle is the full page. -/
lemma layoutImage_fit (img : UploadedImage) (s : PdfSettings)
    (hps : s.pageSize = PageSize.FIT_IMAGE) :
    layoutImage img s = ⟨img.width * pxToMm, img.height * pxToMm, 0, 0,
      img.width * pxToMm, img.height * pxToMm⟩ := by
  cases ho : s.orientation <;>
    simp [layoutImage, resolvePage, placeRect, hps, ho]

/-! ### Claims -/

/-- C1: for every non-empty input image list and every settings record,
the layout computation produces exactly one `PageLayout` per input
image, in input order: the output length equals the input length and the
k-th output's `sourceImageIndex` equals `k`. -/
theorem layout_one_per_image_in_order (images : List UploadedImage) (s : PdfSettings)
    (hne : images ≠ []) :
    (computeLayout images s).length = images.length
    ∧ ∀ k (hk : k < (computeLayout images s).length),
        ((computeLayout images s).get ⟨k, hk⟩).sourceImageIndex = k := by
  refine ⟨computeLayout_length images s, ?_⟩
  intro k hk
  have hk2 : k < images.length := by
    rw [← computeLayout_length images s]
    exact hk
  have h := computeLayout_get images s k hk2
  rw [h]

/-- Witness for C1 at a concrete two-image list. -/
theorem layout_one_per_image_witness :
    (computeLayout [imgLandscape, imgPortrait] DEFAULT_SETTINGS).length = 2
    ∧ ((computeLayout [imgLandscape, imgPortrait] DEFAULT_SETTINGS).get
        ⟨1, by rw [computeLayout_length]; norm_num⟩).sourceImageIndex = 1 := by
  have h := layout_one_per_image_in_order [imgLandscape, imgPortrait] DEFAULT_SETTINGS
    (by simp)
  exact ⟨h.1, h.2 1 _⟩

/-- C9: an empty image list is a no-op — the layout sequence is empty
and no PDF document is produced. -/
theorem empty_input_noop (s : PdfSettings) :
    generatePdf [] s = none ∧ computeLayout [] s = [] := by
  constructor
  · simp [generatePdf]
  · rfl

/-- C10: the geometric layout computed for an image is a function of
only its pixel width, pixel height and the shared settings — across any
two runs and any positions in the lists, agreeing dimensions and
settings give identical page and rectangle values. -/
theorem layout_depends_only_on_dims (l1 l2 : List UploadedImage) (s : PdfSettings)
    (k j : ℕ) (hk : k < l1.length) (hj : j < l2.length)
    (hw : (l1.get ⟨k, hk⟩).width = (l2.get ⟨j, hj⟩).width)
    (hh : (l1.get ⟨k, hk⟩).height = (l2.get ⟨j, hj⟩).height) :
    ((computeLayout l1 s).get ⟨k, by rw [computeLayout_length]; exact hk⟩).geom
      = ((computeLayout l2 s).get ⟨j, by rw [computeLayout_length]; exact hj⟩).geom := by
  rw [computeLayout_get l1 s k hk, computeLayout_get l2 s j hj]
  exact layoutImage_congr _ _ s hw hh

/-- Witness for C10: a lone 3000x2000 JPEG versus a 3000x2000 PNG in
second position of another list get identical geometry. -/
theorem layout_depends_only_on_dims_witness :
    ((computeLayout [imgLandscape] DEFAULT_SETTINGS).get
        ⟨0, by rw [computeLayout_length]; simp⟩).geom
      = ((computeLayout [imgPortrait, imgLandscapePng] DEFAULT_SETTINGS).get
        ⟨1, by rw [computeLayout_length]; simp⟩).geom :=
  layout_depends_only_on_dims [imgLandscape] [imgPortrait, imgLandscapePng]
    DEFAULT_SETTINGS 0 1 (by simp) (by simp) rfl rfl

/-- C3 counterexample: for the 3000 px wide image, the FIT_TO_IMAGE
page width `3000 * 0.264583 = 793.749` differs from `3000 * 25.4 / 96 =
793.75` by `0.001`, far above the claimed `1e-6` tolerance. -/
theorem fit_conversion_counterexample :
    ¬ |(layoutImage imgLandscape FIT_SETTINGS).pageWidth
        - imgLandscape.width * (25.4 / 96)| ≤ 1 / 1000000 := by
  rw [layoutImage_fit imgLandscape FIT_SETTINGS rfl]
  norm_num [imgLandscape, pxToMm, abs_le]

/-- C3 (amended): in FIT_TO_IMAGE mode the page is exactly
`pixels * 0.264583` mm (the code's rounded constant, not `25.4/96`),
the rectangle is the full page, and neither the margin nor the image
fit has any effect. -/
theorem fit_to_image_layout (img : UploadedImage) (s : PdfSettings)
    (hps : s.pageSize = PageSize.FIT_IMAGE) :
    (layoutImage img s).pageWidth = img.width * pxToMm
    ∧ (layoutImage img s).pageHeight = img.height * pxToMm
    ∧ (layoutImage img s).x = 0 ∧ (layoutImage img s).y = 0
    ∧ (layoutImage img s).w = img.width * pxToMm
    ∧ (layoutImage img s).h = img.height * pxToMm
    ∧ ∀ s2 : PdfSettings, s2.pageSize = PageSize.FIT_IMAGE →
        layoutImage img s2 = layoutImage img s := by
  rw [layoutImage_fit img s hps]
  refine ⟨rfl, rfl, rfl, rfl, rfl, rfl, ?_⟩
  intro s2 h2
  rw [layoutImage_fit img s2 h2]

/-- Witness for the amended C3 at the 3000x2000 image. -/
theorem fit_to_image_layout_witness :
    (layoutImage imgLandscape FIT_SETTINGS).pageWidth = imgLandscape.width * pxToMm
    ∧ (layoutImage imgLandscape FIT_SETTINGS).x = 0 :=
  ⟨(fit_to_image_layout imgLandscape FIT_SETTINGS rfl).1,
    (fit_to_image_layout imgLandscape FIT_SETTINGS rfl).2.2.1⟩

/-- C4: under AUTO the resolved orientation is landscape exactly when
`pixelWidth > pixelHeight` (portrait otherwise, squares included); on
the standard page-size modes a landscape resolution makes the page
width exceed its height; and the 3000x2000 image on A4/AUTO yields a
297 x 210 page. -/
theorem auto_orientation_resolution :
    (∀ (img : UploadedImage) (s : PdfSettings), s.orientation = PageOrientation.AUTO →
        (resolveOrientation img s = true ↔ img.height < img.width))
    ∧ (∀ (img : UploadedImage) (s : PdfSettings), s.pageSize ≠ PageSize.FIT_IMAGE →
        resolveOrientation img s = true →
        (resolvePage img s).2 < (resolvePage img s).1)
    ∧ (layoutImage imgLandscape DEFAULT_SETTINGS).pageWidth = 297
    ∧ (layoutImage imgLandscape DEFAULT_SETTINGS).pageHeight = 210 := by
  refine ⟨?_, ?_, ?_, ?_⟩
  · intro img s h
    simp [resolveOrientation, h]
  · intro img s hps hl
    cases hp : s.pageSize with
    | FIT_IMAGE => exact absurd hp hps
    | A4 =>
      cases ho : s.orientation with
      | PORTRAIT => simp [resolveOrientation, ho] at hl
      | LANDSCAPE =>
        have hr : resolvePage img s = (A4_HEIGHT, A4_WIDTH) := by
          simp [resolvePage, hp, ho, A4_WIDTH, A4_HEIGHT]
          norm_num
        rw [hr]
        norm_num [A4_WIDTH, A4_HEIGHT]
      | AUTO =>
        have hwh : img.width > img.height := by
          simpa [resolveOrientation, ho] using hl
        have hr : resolvePage img s = (A4_HEIGHT, A4_WIDTH) := by
          simp [resolvePage, hp, ho, hwh]
        rw [hr]
        norm_num [A4_WIDTH, A4_HEIGHT]
    | LETTER =>
      cases ho : s.orientation with
      | PORTRAIT => simp [resolveOrientation, ho] at hl
      | LANDSCAPE =>
        have hr : resolvePage img s = (LETTER_HEIGHT, LETTER_WIDTH) := by
          simp [resolvePage, hp, ho, LETTER_WIDTH, LETTER_HEIGHT]
          norm_num
        rw [hr]
        norm_num [LETTER_WIDTH, LETTER_HEIGHT]
      | AUTO =>
        have hwh : img.width > img.height := by
          simpa [resolveOrientation, ho] using hl
        have hr : resolvePage img s = (LETTER_HEIGHT, LETTER_WIDTH) := by
          simp [resolvePage, hp, ho, hwh]
        rw [hr]
        norm_num [LETTER_WIDTH, LETTER_HEIGHT]
  · decide
  · decide

/-- Witness for C4: the 3000x2000 image under default (AUTO) settings
resolves to landscape. -/
theorem auto_orientation_witness :
    resolveOrientation imgLandscape DEFAULT_SETTINGS = true :=
  (auto_orientation_resolution.1 imgLandscape DEFAULT_SETTINGS rfl).mpr
    (by norm_num [imgLandscape])

/-- C5 counterexample: an image with width 0 does not make the engine
fail — a full layout and a document are still produced. -/
theorem invalid_dimension_counterexample :
    generatePdf [imgZeroWidth] DEFAULT_SETTINGS ≠ none
    ∧ (computeLayout [imgZeroWidth] DEFAULT_SETTINGS).length = 1 := by
  constructor
  · simp [generatePdf]
  · rfl

/-- C5 (amended): the code performs no dimension validation at all —
even when some image has a non-positive pixel width or height, one
layout per image is produced and the PDF is still generated; there is
no engine-local failure path. -/
theorem no_dimension_validation (images : List UploadedImage) (s : PdfSettings)
    (h : ∃ img ∈ images, img.width ≤ 0 ∨ img.height ≤ 0) :
    (computeLayout images s).length = images.length ∧ generatePdf images s ≠ none := by
  refine ⟨computeLayout_length images s, ?_⟩
  obtain ⟨img, hmem, _⟩ := h
  have hne : images ≠ [] := by
    rintro rfl
    simp at hmem
  simp [generatePdf, hne]

/-- Witness for the amended C5 at a concrete zero-width image. -/
theorem no_dimension_validation_witness :
    (computeLayout [imgZeroWidth] LETTER_FILL_5).length = 1
    ∧ generatePdf [imgZeroWidth] LETTER_FILL_5 ≠ none := by
  have hx : ∃ img ∈ [imgZeroWidth], img.width ≤ 0 ∨ img.height ≤ 0 :=
    ⟨imgZeroWidth, by simp, Or.inl (by norm_num [imgZeroWidth])⟩
  exact no_dimension_validation [imgZeroWidth] LETTER_FILL_5 hx

/-- C6 is violated by the code: a WebP file passes the upload filter
and its payload reaches `doc.addImage` still as WebP, merely tagged
`'JPEG'` — no normalization or rejection happens anywhere. -/
theorem webp_reaches_pdf_writer :
    handleFilesAccepts "image/webp" = true
    ∧ addImagePayloadType imgWebp = "image/webp"
    ∧ addImageFormat imgWebp = "JPEG" := by
  refine ⟨by decide, rfl, by decide⟩

/-- C7 is violated by the code: with STANDARD_LETTER and portrait
orientation the first page keeps the constructor's default A4 size
(210 x 297) while the layout itself — and every later page — uses
215.9 x 279.4. -/
theorem first_page_keeps_default_size :
    emittedPageSize 0 imgPortrait LETTER_PORTRAIT_10 = (210, 297)
    ∧ (layoutImage imgPortrait LETTER_PORTRAIT_10).pageWidth = 215.9
    ∧ (layoutImage imgPortrait LETTER_PORTRAIT_10).pageHeight = 279.4
    ∧ emittedPageSize 1 imgPortrait LETTER_PORTRAIT_10 = (215.9, 279.4) := by
  have hlt : ¬ (LETTER_HEIGHT < LETTER_WIDTH) := by
    norm_num [LETTER_WIDTH, LETTER_HEIGHT]
  have h4 : emittedPageSize 1 imgPortrait LETTER_PORTRAIT_10
      = if LETTER_HEIGHT < LETTER_WIDTH then (LETTER_HEIGHT, LETTER_WIDTH)
        else (LETTER_WIDTH, LETTER_HEIGHT) := rfl
  refine ⟨rfl, rfl, rfl, ?_⟩
  rw [h4, if_neg hlt]
  rfl

/-- C8: on the standard page sizes with `0 ≤ margin ≤ 50`, the computed
rectangle dimensions are never negative, for every image aspect ratio
and every fit mode. -/
theorem rect_dims_nonneg (img : UploadedImage) (s : PdfSettings)
    (hW : 0 < img.width) (hH : 0 < img.height)
    (hps : s.pageSize ≠ PageSize.FIT_IMAGE)
    (hm0 : 0 ≤ s.margin) (hm1 : s.margin ≤ 50) :
    0 ≤ (layoutImage img s).w ∧ 0 ≤ (layoutImage img s).h := by
  have hge := resolvePage_ge img s hps
  have hdw : 0 ≤ (resolvePage img s).1 - s.margin * 2 := by linarith [hge.1]
  have hdh : 0 ≤ (resolvePage img s).2 - s.margin * 2 := by linarith [hge.2]
  have h := placeRect_nonneg img s (resolvePage img s).1 (resolvePage img s).2
    hps hW hH hdw hdh
  simpa [layoutImage] using h

/-- Witness for C8 at the extreme margin of 50 mm on A4. -/
theorem rect_dims_nonneg_witness :
    0 ≤ (layoutImage imgLandscape A4_MARGIN50).w
    ∧ 0 ≤ (layoutImage imgLandscape A4_MARGIN50).h :=
  rect_dims_nonneg imgLandscape A4_MARGIN50
    (by norm_num [imgLandscape]) (by norm_num [imgLandscape])
    (by decide) (by norm_num [A4_MARGIN50]) (by norm_num [A4_MARGIN50])

/-- C2: CONTAIN on a standard page size with `0 ≤ margin ≤ 50` and a
positively-dimensioned image: the rectangle preserves the image's
aspect ratio, lies fully inside the drawable area, has symmetric
leftover gaps on both axes, and matches exactly the branch formulas
(width-saturated when the image ratio exceeds the area ratio, else
height-saturated, ties included). -/
theorem contain_fit_layout (img : UploadedImage) (s : PdfSettings)
    (hW : 0 < img.width) (hH : 0 < img.height)
    (hps : s.pageSize = PageSize.A4 ∨ s.pageSize = PageSize.LETTER)
    (hfit : s.imageFit = ImageFit.CONTAIN)
    (hm0 : 0 ≤ s.margin) (hm1 : s.margin ≤ 50) :
    (layoutImage img s).w / (layoutImage img s).h = img.width / img.height
    ∧ (s.margin ≤ (layoutImage img s).x
       ∧ s.margin ≤ (layoutImage img s).y
       ∧ (layoutImage img s).x + (layoutImage img s).w
           ≤ s.margin + ((layoutImage img s).pageWidth - s.margin * 2)
       ∧ (layoutImage img s).y + (layoutImage img s).h
           ≤ s.margin + ((layoutImage img s).pageHeight - s.margin * 2))
    ∧ ((layoutImage img s).x - s.margin
         = s.margin + ((layoutImage img s).pageWidth - s.margin * 2)
             - ((layoutImage img s).x + (layoutImage img s).w)
       ∧ (layoutImage img s).y - s.margin
         = s.margin + ((layoutImage img s).pageHeight - s.margin * 2)
             - ((layoutImage img s).y + (layoutImage img s).h))
    ∧ (if ((layoutImage img s).pageWidth - s.margin * 2)
            / ((layoutImage img s).pageHeight - s.margin * 2)
            < img.width / img.height then
         (layoutImage img s).w = (layoutImage img s).pageWidth - s.margin * 2
         ∧ (layoutImage img s).h
             = ((layoutImage img s).pageWidth - s.margin * 2) / (img.width / img.height)
         ∧ (layoutImage img s).x = s.margin
         ∧ (layoutImage img s).y = s.margin
             + (((layoutImage img s).pageHeight - s.margin * 2)
                 - ((layoutImage img s).pageWidth - s.margin * 2) / (img.width / img.height)) / 2
       else
         (layoutImage img s).h = (layoutImage img s).pageHeight - s.margin * 2
         ∧ (layoutImage img s).w
             = ((layoutImage img s).pageHeight - s.margin * 2) * (img.width / img.height)
         ∧ (layoutImage img s).y = s.margin
         ∧ (layoutImage img s).x = s.margin
             + (((layoutImage img s).pageWidth - s.margin * 2)
                 - ((layoutImage img s).pageHeight - s.margin * 2) * (img.width / img.height)) / 2) := by
  have hnf : s.pageSize ≠ PageSize.FIT_IMAGE := by
    rcases hps with h | h <;> rw [h] <;> intro hc <;> cases hc
  have hge := resolvePage_ge img s hnf
  have hdw : 0 < (resolvePage img s).1 - s.margin * 2 := by linarith [hge.1]
  have hdh : 0 < (resolvePage img s).2 - s.margin * 2 := by linarith [hge.2]
  have h := placeRect_contain_spec img s (resolvePage img s).1 (resolvePage img s).2
    hfit hnf hW hH hdw hdh
  simpa [layoutImage] using h

/-- Witness for C2 at the spec's worked example (3000x2000 on portrait
A4 with a 10 mm margin). -/
theorem contain_fit_layout_witness :
    (layoutImage imgLandscape A4_PORTRAIT_10).w / (layoutImage imgLandscape A4_PORTRAIT_10).h
      = imgLandscape.width / imgLandscape.height :=
  (contain_fit_layout imgLandscape A4_PORTRAIT_10
    (by norm_num [imgLandscape]) (by norm_num [imgLandscape])
    (Or.inl rfl) rfl
    (by norm_num [A4_PORTRAIT_10]) (by norm_num [A4_PORTRAIT_10])).1

end ImageToPdf
